import Mathlib

/-!
Verification development for the citeproc-node style-fetching module
(`lib/cslFetcher.js`).  The JavaScript source is shallowly embedded:

* Node's legacy `url.parse` is modelled by `parseUrl` below, restricted to
  the behaviour the module depends on: input trimming, protocol
  recognition (`/^[a-zA-Z0-9.+-]+:/`, lowercased, with the `javascript:`
  hostless and `http: https: ftp: gopher: file:` slashed protocol tables),
  authority extraction up to the first host-ending character with `auth@`
  stripping and host lowercasing, percent-escaping of the `autoEscape`
  character set (quote, angle brackets, double quote, backtick, space,
  CR, LF, TAB, curly braces, pipe, backslash, caret) in the part after the
  host, fragment and query splitting on the escaped rest, and `pathname`
  being `null` (here `none`) when empty.  The `host` field keeps any port,
  as in Node.  The simple-path fast branch of the legacy parser (inputs
  beginning with `/`) is not modelled: such inputs have no host either
  way, and the module reads nothing but `host` off them.
* `fs.readdirSync` and `fs.readFile` are oracles: directory listings are
  passed to `init` as lists, file contents as a function
  `String → Option String` (`none` models a read error).
* The style hashes are JavaScript object literals, so a `typeof
  hash[name] != 'undefined'` membership test is also true for the
  property names every object inherits from `Object.prototype`
  (`toString`, `constructor`, `hasOwnProperty`, ...); `protoInherited`
  models that inheritance.  The inherited values are functions or
  objects, never the string or `true` values the module stores, which is
  what the `=== true` and `typeof == "string"` tests observe.
* `cslFetcher.readDependent` delegates its parsing to the external jsdom
  library, so `resolveStyle` is parameterized by the extraction function
  `readDependent : String → Option String` (`none` models its `false`
  return); no claim depends on its internals.
* Each async-waterfall step's callback discipline is made explicit:
  `resolveStyle` returns exactly one completion, while `fetchStyle`
  returns `Option` of a completion because the source contains paths that
  never invoke the callback at all.
-/

namespace CslFetcher

/-- Characters allowed in a URL protocol by Node's legacy parser. -/
def isProtoChar (c : Char) : Bool :=
  c.isAlpha || c.isDigit || c == '.' || c == '+' || c == '-'

/-- Longest prefix satisfying `p`, paired with the rest of the list. -/
def spanP (p : Char → Bool) : List Char → List Char × List Char
  | [] => ([], [])
  | a :: t =>
    if p a then ((a :: (spanP p t).1), (spanP p t).2) else ([], a :: t)

/-- Split a list at the first occurrence of `c`; `none` when absent. -/
def splitFirst (c : Char) : List Char → List Char × Option (List Char)
  | [] => ([], none)
  | a :: t =>
    if a = c then ([], some t)
    else ((a :: (splitFirst c t).1), (splitFirst c t).2)

/-- The `autoEscape` character set of Node's legacy `url.parse`: the
single quote plus the `unwise` characters (curly braces, pipe, backslash,
caret, backtick) and the `delims` (angle brackets, double quote,
backtick, space, CR, LF, TAB).  Codes 96, 123 and 125 are the backtick
and the curly braces. -/
def needsEscape (c : Char) : Bool :=
  c == '\'' || c == '<' || c == '>' || c == '"' || c == Char.ofNat 96 ||
  c == ' ' || c == '\r' || c == '\n' || c == '\t' ||
  c == Char.ofNat 123 || c == Char.ofNat 125 || c == '|' || c == '\\' ||
  c == '^'

/-- Uppercase hexadecimal digit, as produced by `encodeURIComponent` and
`escape`. -/
def hexDigit (n : Nat) : Char :=
  if n < 10 then Char.ofNat (48 + n) else Char.ofNat (55 + n)

/-- Percent-encoding of one character when it is in the auto-escape set
(all its members are ASCII). -/
def escapeChar (c : Char) : List Char :=
  if needsEscape c then ['%', hexDigit (c.toNat / 16 % 16), hexDigit (c.toNat % 16)]
  else [c]

/-- Node's legacy auto-escaping of the rest of a URL after the host. -/
def autoEscapeRest : List Char → List Char
  | [] => []
  | c :: t => escapeChar c ++ autoEscapeRest t

/-- Whitespace removed by the `trim()` Node's legacy parser applies to
its input (ASCII whitespace, NBSP, BOM and the Unicode line
separators). -/
def isJsWs (c : Char) : Bool :=
  c == ' ' || c == '\t' || c == '\n' || c == '\r' ||
  c == Char.ofNat 11 || c == Char.ofNat 12 || c == Char.ofNat 160 ||
  c == Char.ofNat 0xFEFF || c == Char.ofNat 0x2028 || c == Char.ofNat 0x2029

/-- JavaScript `str.trim()`. -/
def jsTrim (l : List Char) : List Char :=
  ((l.dropWhile isJsWs).reverse.dropWhile isJsWs).reverse

/-- Host characters continue until one of Node's `nonHostChars`:
`%`, `/`, `?`, `;`, `#` or any auto-escaped character. -/
def notHostEnd (c : Char) : Bool :=
  !(c == '%' || c == '/' || c == '?' || c == ';' || c == '#' || needsEscape c)

/-- The part of the authority after the last `@` (Node strips `auth@`). -/
def afterLastAt (l : List Char) : List Char :=
  l.foldl (fun acc c => if c = '@' then [] else acc ++ [c]) []

/-- JavaScript `s.substr(start)` on our list-backed strings. -/
def jsDrop (n : Nat) (s : String) : String := String.mk (s.data.drop n)

/-- JavaScript `s.substr(0, n)`. -/
def jsTake (n : Nat) (s : String) : String := String.mk (s.data.take n)

/-- Result of `url.parse`, restricted to the fields the module reads,
plus the `shortName` field `processStyleIdentifier` grafts on. -/
structure UrlObj where
  protocol : Option String
  slashes : Bool
  host : Option String
  pathname : Option String
  search : Option String
  hashPart : Option String
  shortName : Option String
deriving DecidableEq, Repr

/-- Protocols Node's legacy parser treats as always taking `//host`. -/
def isSlashedProto (p : String) : Bool :=
  p == "http:" || p == "https:" || p == "ftp:" || p == "gopher:" || p == "file:"

/-- Last stage of the legacy parser: auto-escape the rest after the host
(skipped for the unsafe `javascript:` protocol), then split the fragment
and the query off the escaped rest, the remainder being the pathname. -/
def finishPath (protoStr : Option String) (slashes : Bool) (host : Option String)
    (rest : List Char) : UrlObj :=
  let esc := if protoStr == some "javascript:" then rest else autoEscapeRest rest
  let hSplit := splitFirst '#' esc
  let qSplit := splitFirst '?' hSplit.1
  { protocol := protoStr, slashes := slashes, host := host,
    pathname := if qSplit.1.isEmpty then none else some (String.mk qSplit.1),
    search := qSplit.2.map (fun q => String.mk ('?' :: q)),
    hashPart := hSplit.2.map (fun h => String.mk ('#' :: h)),
    shortName := none }

/-- Core of `url.parse` on the trimmed input: protocol recognition, the
slashes/host decision, authority extraction, then `finishPath`. -/
def parseCore (work : List Char) : UrlObj :=
  let pSpan := spanP isProtoChar work
  let colonSplit := !pSpan.1.isEmpty && pSpan.2.headD ' ' == ':'
  let protoStr : Option String :=
    if colonSplit then some (String.mk (pSpan.1.map Char.toLower ++ [':'])) else none
  let rest1 := if colonSplit then pSpan.2.tail else work
  let isHostless := protoStr == some "javascript:"
  let slashes := colonSplit && !isHostless && rest1.take 2 == ['/', '/']
  let rest2 := if slashes then rest1.drop 2 else rest1
  let doHost := !isHostless &&
    (slashes || (colonSplit && !(match protoStr with
                                 | some p => isSlashedProto p
                                 | none => false)))
  if doHost then
    let hSpan := spanP notHostEnd rest2
    finishPath protoStr slashes
      (some (String.mk ((afterLastAt hSpan.1).map Char.toLower))) hSpan.2
  else
    finishPath protoStr slashes none rest1

/-- Model of Node's legacy `url.parse` (see the module comment). -/
def parseUrl (str : String) : UrlObj :=
  parseCore (jsTrim str.data)

/-- JavaScript truthiness test `typeof u.host == "undefined" || !u.host`. -/
def hostFalsy (u : UrlObj) : Bool :=
  match u.host with
  | none => true
  | some h => h == ""

/-- `cslFetcher.processStyleIdentifier` (cslFetcher.js:106-138): returns a
URL object, or an error message as a plain string. -/
def processStyleIdentifier (style : String) : Except String UrlObj :=
  let urlObj := parseUrl style
  if hostFalsy urlObj then
    -- Short name, treat as a zotero.org/styles url
    let newStyleUrl := "http://www.zotero.org/styles/" ++ style
    Except.ok { parseUrl newStyleUrl with shortName := some style }
  else if urlObj.host = some "www.zotero.org" then
    match urlObj.pathname with
    | some p =>
      if jsTake 8 p = "/styles/" then
        Except.ok { urlObj with shortName := some (jsDrop 8 p) }
      else Except.error ("Invalid www.zotero.org URL for style: " ++ style)
    | none => Except.error ("Invalid www.zotero.org URL for style: " ++ style)
  else
    -- alternative URL to a style; not robustly handled in the source
    match urlObj.pathname with
    | some p => Except.ok { urlObj with shortName := some (jsDrop 8 p) }
    | none => Except.ok urlObj

/-- Value of an own `cslDependentShortNames` entry: the JavaScript hash
stores `true` (not yet resolved) or the parent style string. -/
inductive DepState where
  | unresolved
  | resolvedTo (parent : String)
deriving DecidableEq, Repr

/-- The `cslFetcher` object's registry state after `init`.  The two hash
fields hold the OWN properties; property names inherited from
`Object.prototype` are accounted for separately by `protoInherited`. -/
structure Registry where
  cslPath : String
  cslDir : List String
  cslShortNames : String → Bool
  cslDependentDir : List String
  cslDependentShortNames : String → Option DepState

/-- JavaScript `filename.substr(-4)` (whole string when shorter than 4). -/
def jsLast4 (f : String) : String := String.mk (f.data.drop (f.data.length - 4))

/-- `filename.substr(-4) == '.csl'`. -/
def isCslFile (f : String) : Bool := jsLast4 f == ".csl"

/-- JavaScript `filename.slice(0, -4)`. -/
def cslBase (f : String) : String := String.mk (f.data.take (f.data.length - 4))

/-- The short-name hash built by either loop of `init`: base names of the
`.csl` files in a directory listing. -/
def namesFromDir (dir : List String) : String → Bool :=
  fun s => dir.any (fun f => isCslFile f && cslBase f == s)

/-- `cslFetcher.init` (cslFetcher.js:53-91).  The two `fs.readdirSync`
results are passed in as listings. -/
def init (cslPath : String) (cslDirListing depDirListing : List String) : Registry :=
  { cslPath := cslPath,
    cslDir := cslDirListing,
    cslShortNames := namesFromDir cslDirListing,
    cslDependentDir := depDirListing,
    cslDependentShortNames :=
      fun s => if namesFromDir depDirListing s then some DepState.unresolved else none }

/-- Property names every JavaScript object literal inherits from
`Object.prototype`: `typeof hash[name] != 'undefined'` is true for them
even when the hash has no own entry, and the inherited value is a
function or an object, never a string and never `true`. -/
def objectProtoNames : List String :=
  ["constructor", "hasOwnProperty", "isPrototypeOf", "propertyIsEnumerable",
   "toLocaleString", "toString", "valueOf", "__defineGetter__",
   "__defineSetter__", "__lookupGetter__", "__lookupSetter__", "__proto__"]

/-- Whether a short name is shadowed by an inherited
`Object.prototype` property. -/
def protoInherited (s : String) : Bool := objectProtoNames.contains s

/-- A value a waterfall step passes to its callback as the error argument. -/
inductive CbErr where
  /-- a plain string error message -/
  | strErr (msg : String)
  /-- a structured `{statusCode, message}` object -/
  | statusErr (statusCode : Nat) (message : String)
  /-- the Node error object from a failed `fs.readFile` (resolveStyle) -/
  | fsErr (filename : String)
  /-- the string built from a failed `fs.readFile` in `fetchStyle` -/
  | fileLoadErr (filename : String)
deriving DecidableEq, Repr

/-- The request object `zcreq`, restricted to the fields this module
touches.  `styleUrlObj` keeps the dynamic type of the source: the cache-hit
path of `resolveStyle` stores `processStyleIdentifier`'s raw result there,
which may be an error string. -/
structure ZcReq where
  styleUrlObj : Except String UrlObj
  postedStyle : Bool
  styleXmlPosted : String
  cslXml : Option String

/-- Reading `.shortName` off `zcreq.styleUrlObj`: on a string value the
property is `undefined`. -/
def shortNameOf : Except String UrlObj → Option String
  | Except.ok u => u.shortName
  | Except.error _ => none

/-- Reading `.host` off `zcreq.styleUrlObj`. -/
def hostOf : Except String UrlObj → Option String
  | Except.ok u => u.host
  | Except.error _ => none

/-- Pointwise update of a dependent-state table (JavaScript hash store,
creating or overwriting an own property). -/
def updateMap (m : String → Option DepState) (k : String) (v : DepState) :
    String → Option DepState :=
  fun s => if s = k then some v else m s

/-- Outcome of one `resolveStyle` call: the single callback argument
(`none` = `callback(null)`), the registry and request afterwards, and how
many `fs.readFile` calls were made. -/
structure ResolveOut where
  err : Option CbErr
  reg : Registry
  req : ZcReq
  reads : Nat

/-- `cslFetcher.resolveStyle` (cslFetcher.js:141-203).  `fsys` models
`fs.readFile`; `readDependent` models the jsdom-backed extractor
(cslFetcher.js:280-297, `none` for its `false` return).  The dependent
membership test at line 159 is `typeof hash[shortName] != 'undefined'`,
true for an own entry or an inherited `Object.prototype` name; the
string test at line 162 is true only for an own memoized entry, so an
inherited name falls into the file-read branch.  A JavaScript lookup
with an `undefined` short name misses both hashes (assuming no style
file is literally named `undefined.csl`), reaching the 404 branch. -/
def resolveStyle (reg : Registry) (zcreq : ZcReq)
    (fsys : String → Option String) (readDependent : String → Option String) :
    ResolveOut :=
  match shortNameOf zcreq.styleUrlObj with
  | none =>
    { err := some (CbErr.statusErr 404 "Style not found"),
      reg := reg, req := zcreq, reads := 0 }
  | some shortName =>
    if reg.cslShortNames shortName then
      -- Independent style (`=== true` rules out inherited values)
      { err := none, reg := reg, req := zcreq, reads := 0 }
    else if (reg.cslDependentShortNames shortName).isSome || protoInherited shortName then
      match reg.cslDependentShortNames shortName with
      | some (DepState.resolvedTo parentStyle) =>
        -- Dependent style already resolved
        { err := none, reg := reg,
          req := { zcreq with styleUrlObj := processStyleIdentifier parentStyle },
          reads := 0 }
      | _ =>
        -- Own value `true`, or an inherited function: not a string, so
        -- the code treats it as a dependent style not resolved before
        let filename := reg.cslPath ++ "/dependent/" ++ shortName ++ ".csl"
        match fsys filename with
        | none =>
          { err := some (CbErr.fsErr filename), reg := reg, req := zcreq, reads := 1 }
        | some data =>
          match readDependent data with
          | none =>
            { err := some (CbErr.strErr "Error resolving dependent style"),
              reg := reg, req := zcreq, reads := 1 }
          | some parentStyle =>
            let reg' := { reg with
              cslDependentShortNames :=
                updateMap reg.cslDependentShortNames shortName
                  (DepState.resolvedTo parentStyle) }
            match processStyleIdentifier parentStyle with
            | Except.error e =>
              { err := some (CbErr.strErr e), reg := reg', req := zcreq, reads := 1 }
            | Except.ok _ =>
              { err := none, reg := reg',
                req := { zcreq with styleUrlObj := processStyleIdentifier parentStyle },
                reads := 1 }
    else
      { err := some (CbErr.statusErr 404 "Style not found"),
        reg := reg, req := zcreq, reads := 0 }

/-- Outcome of one `fetchStyle` call.  `cb = none` means the function
returned without ever invoking its callback (the source has such paths);
`cb = some none` is `callback(null)`. -/
structure FetchOut where
  cb : Option (Option CbErr)
  req : ZcReq
  reads : Nat

/-- `cslFetcher.fetchStyle` (cslFetcher.js:206-277).  Nothing in the
modelled paths throws, so the `try/catch` adds no behaviour.  The
dependent test at line 241 is the same `typeof` test as in
`resolveStyle`, but both the dependent branch (empty inner `if`) and the
unknown-name fallthrough end without a callback either way. -/
def fetchStyle (reg : Registry) (zcreq : ZcReq)
    (fsys : String → Option String) : FetchOut :=
  if zcreq.postedStyle then
    -- Using the posted style
    { cb := some none,
      req := { zcreq with cslXml := some zcreq.styleXmlPosted }, reads := 0 }
  else if hostOf zcreq.styleUrlObj = some "www.zotero.org" then
    match shortNameOf zcreq.styleUrlObj with
    | some s =>
      if reg.cslShortNames s then
        let filename := reg.cslPath ++ "/" ++ s ++ ".csl"
        match fsys filename with
        | none =>
          { cb := some (some (CbErr.fileLoadErr filename)), req := zcreq, reads := 1 }
        | some data =>
          { cb := some none, req := { zcreq with cslXml := some data }, reads := 1 }
      else if (reg.cslDependentShortNames s).isSome || protoInherited s then
        -- dependent branch: the inner `if` has an empty body and no
        -- callback is ever invoked on this path
        { cb := none, req := zcreq, reads := 0 }
      else
        -- zotero host but unknown short name: also falls through with no
        -- callback
        { cb := none, req := zcreq, reads := 0 }
    | none =>
      { cb := none, req := zcreq, reads := 0 }
  else
    { cb := some (some (CbErr.strErr "Non-Zotero styles are not supported at this time")),
      req := zcreq, reads := 0 }

/-- Disjointness of the two registries on short names (spec section 3's
registry invariant). -/
def RegDisjoint (reg : Registry) : Prop :=
  ∀ s, reg.cslShortNames s = true → reg.cslDependentShortNames s = none

/-- A request carrying only a style identifier (no posted payload). -/
def mkReq (u : Except String UrlObj) : ZcReq :=
  { styleUrlObj := u, postedStyle := false, styleXmlPosted := "", cslXml := none }

/-- Registry fixture whose dependent table already memoizes
`memo -> "apa"`, the state reached after a first successful resolution. -/
def memoReg : Registry :=
  { cslPath := "./csl", cslDir := [], cslShortNames := fun _ => false,
    cslDependentDir := ["memo.csl"],
    cslDependentShortNames :=
      fun s => if s = "memo" then some (DepState.resolvedTo "apa") else none }

theorem finishPath_shortName (a : Option String) (b : Bool) (c : Option String)
    (d : List Char) : (finishPath a b c d).shortName = none := rfl

theorem parseUrl_shortName_none (str : String) : (parseUrl str).shortName = none := by
  unfold parseUrl parseCore
  dsimp only
  rw [apply_ite UrlObj.shortName, finishPath_shortName, finishPath_shortName,
    ite_self]

theorem resolveStyle_registry_cases (reg : Registry) (req : ZcReq)
    (fsys readDep : String → Option String) :
    (resolveStyle reg req fsys readDep).reg.cslShortNames = reg.cslShortNames ∧
    ((resolveStyle reg req fsys readDep).reg.cslDependentShortNames
        = reg.cslDependentShortNames ∨
      ∃ s parent,
        reg.cslShortNames s = false ∧
        (reg.cslDependentShortNames s = some DepState.unresolved ∨
          (reg.cslDependentShortNames s = none ∧ protoInherited s = true)) ∧
        (resolveStyle reg req fsys readDep).reg.cslDependentShortNames
          = updateMap reg.cslDependentShortNames s (DepState.resolvedTo parent)) := by
  rcases hsn : shortNameOf req.styleUrlObj with _ | s
  · simp [resolveStyle, hsn]
  · rcases hi : reg.cslShortNames s with _ | _
    · rcases hd : reg.cslDependentShortNames s with _ | st
      · rcases hp : protoInherited s with _ | _
        · simp [resolveStyle, hsn, hi, hd, hp]
        · rcases hf : fsys (reg.cslPath ++ "/dependent/" ++ s ++ ".csl") with _ | data
          · simp [resolveStyle, hsn, hi, hd, hp, hf]
          · rcases hr : readDep data with _ | parent
            · simp [resolveStyle, hsn, hi, hd, hp, hf, hr]
            · rcases hn : processStyleIdentifier parent with e | u
              · refine ⟨?_, Or.inr ⟨s, parent, hi, Or.inr ⟨hd, hp⟩, ?_⟩⟩ <;>
                  simp [resolveStyle, hsn, hi, hd, hp, hf, hr, hn]
              · refine ⟨?_, Or.inr ⟨s, parent, hi, Or.inr ⟨hd, hp⟩, ?_⟩⟩ <;>
                  simp [resolveStyle, hsn, hi, hd, hp, hf, hr, hn]
      · rcases st with _ | p
        · rcases hf : fsys (reg.cslPath ++ "/dependent/" ++ s ++ ".csl") with _ | data
          · simp [resolveStyle, hsn, hi, hd, hf]
          · rcases hr : readDep data with _ | parent
            · simp [resolveStyle, hsn, hi, hd, hf, hr]
            · rcases hn : processStyleIdentifier parent with e | u
              · refine ⟨?_, Or.inr ⟨s, parent, hi, Or.inl hd, ?_⟩⟩ <;>
                  simp [resolveStyle, hsn, hi, hd, hf, hr, hn]
              · refine ⟨?_, Or.inr ⟨s, parent, hi, Or.inl hd, ?_⟩⟩ <;>
                  simp [resolveStyle, hsn, hi, hd, hf, hr, hn]
        · simp [resolveStyle, hsn, hi, hd]
    · simp [resolveStyle, hsn, hi]

/-- C1: contrary to the claim, `fetchStyle` does not invoke its completion
callback exactly once on every request.  When the request's identifier has
the canonical host `www.zotero.org` but its short name denotes a dependent
style (first conjunct) or is in neither registry (second conjunct), the
function returns with the callback never invoked — zero completions rather
than an `InternalFallthrough` error.  This theorem evaluates the code at
the failing inputs. -/
theorem c1_fetchStyle_fallthrough_never_completes :
    (fetchStyle (init "./csl" ["mla.csl"] ["apa.csl"])
        (mkReq (processStyleIdentifier "apa")) (fun _ => some "<x/>")).cb = none ∧
    (fetchStyle (init "./csl" ["mla.csl"] ["apa.csl"])
        (mkReq (processStyleIdentifier "unknown")) (fun _ => some "<x/>")).cb = none := by
  decide

/-- C2 counterexample: resolving the unresolved dependent short name
"child" whose file's extracted parent "http://www.zotero.org/bad" fails
normalization does propagate the normalization failure, but the dependent
table is NOT left unchanged: the entry `ResolvedTo` the parent string has
been written, refuting the claim at this concrete input. -/
theorem c2_counterexample :
    (resolveStyle (init "./csl" [] ["child.csl"]) (mkReq (processStyleIdentifier "child"))
        (fun f => if f = "./csl/dependent/child.csl" then some "<xml/>" else none)
        (fun d => if d = "<xml/>" then some "http://www.zotero.org/bad" else none)).err
      = some (CbErr.strErr
          "Invalid www.zotero.org URL for style: http://www.zotero.org/bad") ∧
    (resolveStyle (init "./csl" [] ["child.csl"]) (mkReq (processStyleIdentifier "child"))
        (fun f => if f = "./csl/dependent/child.csl" then some "<xml/>" else none)
        (fun d => if d = "<xml/>" then some "http://www.zotero.org/bad" else none)).reg.cslDependentShortNames
        "child"
      = some (DepState.resolvedTo "http://www.zotero.org/bad") := by decide

/-- C2 (amended): when `resolveStyle` processes an unresolved dependent
short name and the parent identifier extracted from the file fails
normalization, the normalization failure is propagated as the step's
failure and the request is left unchanged, but the memoization entry
`dependentState[shortName] = ResolvedTo(parentString)` is written before
normalization is attempted, so the dependent table does record the entry
even on a normalization failure. -/
theorem c2_norm_failure_propagated_but_memoized
    (reg : Registry) (req : ZcReq) (fsys readDep : String → Option String)
    (s data parent e : String)
    (hsn : shortNameOf req.styleUrlObj = some s)
    (hind : reg.cslShortNames s = false)
    (hdep : reg.cslDependentShortNames s = some DepState.unresolved)
    (hfs : fsys (reg.cslPath ++ "/dependent/" ++ s ++ ".csl") = some data)
    (hrd : readDep data = some parent)
    (hnorm : processStyleIdentifier parent = Except.error e) :
    (resolveStyle reg req fsys readDep).err = some (CbErr.strErr e) ∧
    (resolveStyle reg req fsys readDep).reg.cslDependentShortNames s
      = some (DepState.resolvedTo parent) ∧
    (resolveStyle reg req fsys readDep).req = req := by
  refine ⟨?_, ?_, ?_⟩ <;> simp [resolveStyle, hsn, hind, hdep, hfs, hrd, hnorm, updateMap]

/-- Witness for C2's amended theorem at a concrete instance. -/
theorem c2_witness :
    (resolveStyle (init "./csl" [] ["kid.csl"]) (mkReq (processStyleIdentifier "kid"))
        (fun f => if f = "./csl/dependent/kid.csl" then some "<k/>" else none)
        (fun d => if d = "<k/>" then some "http://www.zotero.org/oops" else none)).reg.cslDependentShortNames
        "kid"
      = some (DepState.resolvedTo "http://www.zotero.org/oops") :=
  (c2_norm_failure_propagated_but_memoized _ _ _ _ "kid" "<k/>"
    "http://www.zotero.org/oops"
    "Invalid www.zotero.org URL for style: http://www.zotero.org/oops"
    (by decide) (by decide) (by decide) (by decide) (by decide) (by rfl)).2.1

/-- C4: for every request whose current identifier's short name is in the
independent-name registry, one `resolveStyle` call succeeds
(`callback(null)`), performs no storage read (`reads = 0`, and the result
does not depend on the file system or extractor at all since they are
universally quantified), and leaves the request and the registry entirely
unchanged. -/
theorem c4_independent_resolve_noop
    (reg : Registry) (req : ZcReq) (fsys readDep : String → Option String) (s : String)
    (hsn : shortNameOf req.styleUrlObj = some s)
    (hmem : reg.cslShortNames s = true) :
    resolveStyle reg req fsys readDep =
      { err := none, reg := reg, req := req, reads := 0 } := by
  simp [resolveStyle, hsn, hmem]

/-- Witness for C4 at the independent style "apa". -/
theorem c4_witness :
    resolveStyle (init "./csl" ["apa.csl"] []) (mkReq (processStyleIdentifier "apa"))
        (fun _ => none) (fun _ => none) =
      { err := none, reg := init "./csl" ["apa.csl"] [],
        req := mkReq (processStyleIdentifier "apa"), reads := 0 } :=
  c4_independent_resolve_noop _ _ _ _ "apa" (by decide) (by decide)

/-- C5: once the dependent table maps a short name to `ResolvedTo p`,
`resolveStyle` on that name succeeds with zero file reads, replaces the
request's identifier with `processStyleIdentifier p` (the normalization of
the memoized parent), and leaves the registry unchanged; moreover (second
conjunct) a `ResolvedTo` entry survives any `resolveStyle` call on any
registry: entries never revert, so the transition happens at most once. -/
theorem c5_memoized_resolution_stable
    (reg : Registry) (req : ZcReq) (fsys readDep : String → Option String)
    (s p : String)
    (hsn : shortNameOf req.styleUrlObj = some s)
    (hind : reg.cslShortNames s = false)
    (hdep : reg.cslDependentShortNames s = some (DepState.resolvedTo p)) :
    ((resolveStyle reg req fsys readDep).err = none ∧
     (resolveStyle reg req fsys readDep).reads = 0 ∧
     (resolveStyle reg req fsys readDep).req.styleUrlObj = processStyleIdentifier p ∧
     (resolveStyle reg req fsys readDep).reg = reg) ∧
    ∀ (reg₂ : Registry) (req₂ : ZcReq) (fs₂ rd₂ : String → Option String) (t q : String),
      reg₂.cslDependentShortNames t = some (DepState.resolvedTo q) →
      (resolveStyle reg₂ req₂ fs₂ rd₂).reg.cslDependentShortNames t
        = some (DepState.resolvedTo q) := by
  constructor
  · refine ⟨?_, ?_, ?_, ?_⟩ <;> simp [resolveStyle, hsn, hind, hdep]
  · intro reg₂ req₂ fs₂ rd₂ t q hq
    rcases (resolveStyle_registry_cases reg₂ req₂ fs₂ rd₂).2 with he | ⟨s₀, parent, hi₀, hd₀, he⟩
    · rw [he]; exact hq
    · rw [he]
      by_cases ht : t = s₀
      · subst ht
        rcases hd₀ with hd₀ | hd₀
        · rw [hq] at hd₀
          simp at hd₀
        · rw [hq] at hd₀
          simp at hd₀
      · simp [updateMap, ht, hq]

/-- Witness for C5 on a registry whose table already memoizes
`memo -> "apa"`. -/
theorem c5_witness :
    (resolveStyle memoReg (mkReq (processStyleIdentifier "memo"))
        (fun _ => none) (fun _ => none)).err = none ∧
    (resolveStyle memoReg (mkReq (processStyleIdentifier "memo"))
        (fun _ => none) (fun _ => none)).reads = 0 :=
  have h := c5_memoized_resolution_stable memoReg (mkReq (processStyleIdentifier "memo"))
    (fun _ => none) (fun _ => none) "memo" "apa" (by decide) (by decide) (by decide)
  ⟨h.1.1, h.1.2.1⟩

/-- C6 counterexample: the short name "toString" is in neither registry,
yet `resolveStyle` does not fail with the claimed 404 value: the
`typeof` membership test is true for the `Object.prototype`-inherited
property, so the code takes the unresolved-dependent branch, performs a
file read of `./csl/dependent/toString.csl`, and fails with the read
error instead. -/
theorem c6_counterexample :
    (init "./csl" ["apa.csl"] ["chicago.csl"]).cslShortNames "toString" = false ∧
    (init "./csl" ["apa.csl"] ["chicago.csl"]).cslDependentShortNames "toString"
      = none ∧
    (resolveStyle (init "./csl" ["apa.csl"] ["chicago.csl"])
        (mkReq (processStyleIdentifier "toString")) (fun _ => none)
        (fun _ => none)).err
      = some (CbErr.fsErr "./csl/dependent/toString.csl") ∧
    (resolveStyle (init "./csl" ["apa.csl"] ["chicago.csl"])
        (mkReq (processStyleIdentifier "toString")) (fun _ => none)
        (fun _ => none)).reads = 1 := by decide

/-- C6 (amended): for every request whose short name is in neither
registry and is not one of the property names the JavaScript hash
inherits from `Object.prototype` (`toString`, `constructor`,
`hasOwnProperty`, `valueOf`, ...), `resolveStyle` fails with the
structured not-found value `{statusCode: 404, message: "Style not
found"}`, leaving registry and request unchanged and reading no file.
For the inherited names the `typeof` membership test misfires and the
code instead takes the unresolved-dependent file-read path, failing with
the read error. -/
theorem c6_unknown_style_404
    (reg : Registry) (req : ZcReq) (fsys readDep : String → Option String) (s : String)
    (hsn : shortNameOf req.styleUrlObj = some s)
    (hind : reg.cslShortNames s = false)
    (hdep : reg.cslDependentShortNames s = none)
    (hproto : protoInherited s = false) :
    resolveStyle reg req fsys readDep =
      { err := some (CbErr.statusErr 404 "Style not found"),
        reg := reg, req := req, reads := 0 } := by
  simp [resolveStyle, hsn, hind, hdep, hproto]

/-- Witness for C6's amended theorem at the unknown short name
"unknown". -/
theorem c6_witness :
    resolveStyle (init "./csl" ["apa.csl"] ["chicago.csl"])
        (mkReq (processStyleIdentifier "unknown")) (fun _ => none) (fun _ => none) =
      { err := some (CbErr.statusErr 404 "Style not found"),
        reg := init "./csl" ["apa.csl"] ["chicago.csl"],
        req := mkReq (processStyleIdentifier "unknown"), reads := 0 } :=
  c6_unknown_style_404 _ _ _ _ "unknown" (by decide) (by decide) (by decide) (by decide)

/-- C7: for every request carrying a posted stylesheet payload,
`fetchStyle` completes exactly once with success, stores the posted
payload unchanged as the resolved content, and performs no registry lookup
and no storage read (the registry and file system are universally
quantified and `reads = 0`), regardless of any resolved identifier on the
request. -/
theorem c7_posted_style_verbatim
    (reg : Registry) (req : ZcReq) (fsys : String → Option String)
    (hp : req.postedStyle = true) :
    fetchStyle reg req fsys =
      { cb := some none, req := { req with cslXml := some req.styleXmlPosted },
        reads := 0 } := by
  simp [fetchStyle, hp]

/-- Witness for C7 with a concrete posted payload. -/
theorem c7_witness :
    fetchStyle (init "./csl" [] [])
        { styleUrlObj := processStyleIdentifier "apa", postedStyle := true,
          styleXmlPosted := "<style/>", cslXml := none } (fun _ => none) =
      { cb := some none,
        req := { styleUrlObj := processStyleIdentifier "apa", postedStyle := true,
                 styleXmlPosted := "<style/>", cslXml := some "<style/>" },
        reads := 0 } :=
  c7_posted_style_verbatim _ _ _ (by decide)

/-- C8: one `resolveStyle` invocation on an unresolved dependent short
name advances the identifier by exactly one hop: even when the resolved
parent is itself a dependent style (hypothesis `_hparentDep`), the call
signals success, sets the request's identifier to the normalized parent,
performs exactly one file read, and changes the registry only by memoizing
this one entry — it does not loop or perform any further resolution
step. -/
theorem c8_single_hop_resolution
    (reg : Registry) (req : ZcReq) (fsys readDep : String → Option String)
    (s data parent t : String) (pu : UrlObj)
    (hsn : shortNameOf req.styleUrlObj = some s)
    (hind : reg.cslShortNames s = false)
    (hdep : reg.cslDependentShortNames s = some DepState.unresolved)
    (hfs : fsys (reg.cslPath ++ "/dependent/" ++ s ++ ".csl") = some data)
    (hrd : readDep data = some parent)
    (hnorm : processStyleIdentifier parent = Except.ok pu)
    (_hpt : pu.shortName = some t)
    (_hparentDep : ((resolveStyle reg req fsys readDep).reg.cslDependentShortNames t).isSome
        = true) :
    (resolveStyle reg req fsys readDep).err = none ∧
    (resolveStyle reg req fsys readDep).req.styleUrlObj = processStyleIdentifier parent ∧
    (resolveStyle reg req fsys readDep).reads = 1 ∧
    (resolveStyle reg req fsys readDep).reg.cslDependentShortNames
      = updateMap reg.cslDependentShortNames s (DepState.resolvedTo parent) ∧
    (resolveStyle reg req fsys readDep).reg.cslShortNames = reg.cslShortNames := by
  refine ⟨?_, ?_, ?_, ?_, ?_⟩ <;> simp [resolveStyle, hsn, hind, hdep, hfs, hrd, hnorm]

/-- Witness for C8: "child" depends on "parent2", which is itself a
dependent style. -/
theorem c8_witness :
    (resolveStyle (init "./csl" [] ["child.csl", "parent2.csl"])
        (mkReq (processStyleIdentifier "child"))
        (fun f => if f = "./csl/dependent/child.csl" then some "<c/>" else none)
        (fun d => if d = "<c/>" then some "parent2" else none)).err = none ∧
    (resolveStyle (init "./csl" [] ["child.csl", "parent2.csl"])
        (mkReq (processStyleIdentifier "child"))
        (fun f => if f = "./csl/dependent/child.csl" then some "<c/>" else none)
        (fun d => if d = "<c/>" then some "parent2" else none)).req.styleUrlObj
      = processStyleIdentifier "parent2" :=
  have h := c8_single_hop_resolution (init "./csl" [] ["child.csl", "parent2.csl"])
    (mkReq (processStyleIdentifier "child"))
    (fun f => if f = "./csl/dependent/child.csl" then some "<c/>" else none)
    (fun d => if d = "<c/>" then some "parent2" else none)
    "child" "<c/>" "parent2" "parent2"
    { protocol := some "http:", slashes := true, host := some "www.zotero.org",
      pathname := some "/styles/parent2", search := none, hashPart := none,
      shortName := some "parent2" }
    (by decide) (by decide) (by decide) (by decide) (by decide) (by rfl) (by decide)
    (by decide)
  ⟨h.1, h.2.1⟩

/-- C9 counterexample: `init` from the overlapping directory listings
`["a.csl"]` and `["a.csl"]` puts the short name "a" into BOTH the
independent-name set and the dependent table's key set, refuting the
claimed unconditional disjointness. -/
theorem c9_counterexample :
    (init "./csl" ["a.csl"] ["a.csl"]).cslShortNames "a" = true ∧
    (init "./csl" ["a.csl"] ["a.csl"]).cslDependentShortNames "a"
      = some DepState.unresolved := by decide

/-- C9 (amended): provided no `.csl` base name occurs in both directory
listings, after `init` every short name belongs to at most one of the
independent-name set and the dependent table's key set, and every
subsequent `resolveStyle` call preserves disjointness (the only registry
write rewrites the value at a key whose independent lookup is false).
`init` itself does not enforce the disjointness; with overlapping
listings it is violated. -/
theorem c9_registry_disjointness
    (cslPath : String) (indDir depDir : List String)
    (hdisj : ∀ f ∈ indDir, ∀ g ∈ depDir,
      isCslFile f = true → isCslFile g = true → cslBase f ≠ cslBase g) :
    RegDisjoint (init cslPath indDir depDir) ∧
    ∀ (reg : Registry) (req : ZcReq) (fsys readDep : String → Option String),
      RegDisjoint reg → RegDisjoint (resolveStyle reg req fsys readDep).reg := by
  constructor
  · intro s hs
    simp only [init] at hs ⊢
    by_cases hd : namesFromDir depDir s = true
    · exfalso
      rcases List.any_eq_true.mp hs with ⟨f, hf, hfp⟩
      rcases List.any_eq_true.mp hd with ⟨g, hg, hgp⟩
      rw [Bool.and_eq_true] at hfp hgp
      have h1 : cslBase f = s := by simpa using hfp.2
      have h2 : cslBase g = s := by simpa using hgp.2
      exact hdisj f hf g hg hfp.1 hgp.1 (h1.trans h2.symm)
    · simp [hd]
  · intro reg req fsys readDep hR s hs
    obtain ⟨hA, hB⟩ := resolveStyle_registry_cases reg req fsys readDep
    rw [hA] at hs
    rcases hB with he | ⟨s₀, parent, hi₀, hd₀, he⟩
    · rw [he]
      exact hR s hs
    · rw [he]
      by_cases hss : s = s₀
      · subst hss
        rw [hs] at hi₀
        simp at hi₀
      · simp [updateMap, hss, hR s hs]

/-- Witness for C9's amended theorem on disjoint listings. -/
theorem c9_witness :
    RegDisjoint (init "./csl" ["a.csl"] ["b.csl"]) :=
  (c9_registry_disjointness "./csl" ["a.csl"] ["b.csl"] (by decide)).1

/-- C10: for every input whose parsed URL has a host that is neither the
canonical domain nor empty, `processStyleIdentifier` never returns an
error: it returns the parsed object with `shortName` set to the pathname
with its first 8 characters removed when the pathname is a string (even
when the pathname does not begin with "/styles/"), and with no
`shortName` at all when the pathname is not a string. -/
theorem c10_other_host_never_errs
    (style h : String)
    (hh : (parseUrl style).host = some h)
    (h1 : h ≠ "www.zotero.org") (h2 : h ≠ "") :
    processStyleIdentifier style =
      Except.ok { parseUrl style with
        shortName := (parseUrl style).pathname.map (jsDrop 8) } := by
  have hf : hostFalsy (parseUrl style) = false := by
    unfold hostFalsy
    rw [hh]
    exact beq_eq_false_iff_ne.mpr h2
  have hne : ¬ (parseUrl style).host = some "www.zotero.org" := by
    rw [hh]
    intro hcon
    exact h1 (Option.some.inj hcon)
  simp only [processStyleIdentifier, hf, Bool.false_eq_true, if_false, if_neg hne]
  rcases hp : (parseUrl style).pathname with _ | p
  · simp only [hp, Option.map_none']
    nth_rewrite 2 [← parseUrl_shortName_none style]
    rw [← hp]
  · simp only [hp, Option.map_some']

/-- Witness for C10 at a 3-character pathname, whose shortName comes out
as the empty string. -/
theorem c10_witness :
    ((parseUrl "http://example.com/ab").host = some "example.com") ∧
    processStyleIdentifier "http://example.com/ab" =
      Except.ok { parseUrl "http://example.com/ab" with
        shortName := (parseUrl "http://example.com/ab").pathname.map (jsDrop 8) } :=
  ⟨by decide,
   c10_other_host_never_errs "http://example.com/ab" "example.com" (by decide)
     (by decide) (by decide)⟩

end CslFetcher
